import Mathlib

/-
Shallow embedding of the pt-routing public-transit router.

Conventions used throughout:
* Absolute instants (std::chrono::zoned_seconds) are represented by their
  sys_time seconds as Int; every comparison in the source goes through
  get_sys_time(), so only this integer is relevant.
* C++ doubles are represented by real numbers.
* Stops are handled by reference in the source, but every container is keyed
  by std::hash<Stop> / Stop::operator==, both of which use only the GTFS id
  string (schedule/components/stop.h, Schedule.h); the embedding therefore
  records cross references between entities as GTFS id strings.
* unordered_map / unordered_set are modelled as association lists with
  lookup by key equality; insert_or_assign, emplace and insert keep their
  C++ semantics.
* Dates (std::chrono::year_month_day / sys_days) are represented as the
  count of days since 1970-01-01; 1970-01-01 is a Thursday, so the C++
  weekday of a date d is (d + 4) mod 7 with Sunday = 0 (C encoding).
-/

/- ===== schedule/components/stop.h ===== -/

/-- Station (schedule/components/stop.h). Children are recorded by their GTFS
ids: in the source a Station holds references to its child Stop objects, and
all comparisons on those children go through Stop::operator==, which compares
GTFS ids only. -/
structure Station where
  name : String
  gtfs_id : String
  stop_ids : List String
deriving Repr, DecidableEq

/-- Stop (schedule/components/stop.h): display name, GTFS id, platform code,
coordinates in decimal degrees, optional parent station. -/
structure Stop where
  name : String
  gtfs_id : String
  platform_code : String
  latitude : ℝ
  longitude : ℝ
  parent_station : Option Station

instance : Inhabited Stop := ⟨⟨"", "", "", 0, 0, none⟩⟩

/-- Stop::operator== (stop.h): two stops are equal iff their GTFS ids are. -/
def stop_eq (a b : Stop) : Bool :=
  a.gtfs_id == b.gtfs_id

/-- The key under which std::hash of a Stop (and of reference_wrapper of
Stop) buckets a stop: the hash of the GTFS id string (Schedule.h). -/
def stop_hash_key (s : Stop) : String :=
  s.gtfs_id

/- ===== schedule/components/trip.h and route.h ===== -/

/-- StopTime (trip.h): arrival and departure instants plus the stop served,
identified by its GTFS id. -/
structure StopTime where
  arrival_time : Int
  departure_time : Int
  stop_id : String
deriving Repr, DecidableEq

/-- Trip (trip.h): ordered stop times plus feed identifiers. -/
structure Trip where
  stop_times : List StopTime
  trip_gtfs_id : String
  shape_gtfs_id : String
deriving Repr, DecidableEq

/-- Departure instant of a trip at a position in its stop sequence (the
source reads next(trip.get_stop_times().begin(), stop_index) and calls
get_departure_time(); an out-of-range index is undefined behaviour in the
source and is defaulted to 0 here, the algorithm only uses in-range
indices). -/
def departure_at (trip : Trip) (stop_index : Nat) : Int :=
  ((trip.stop_times.get? stop_index).map StopTime.departure_time).getD 0

/-- First-stop departure of a trip: get_stop_times()[0].get_departure_time()
(gtfs.cpp trip sort key). -/
def first_departure (trip : Trip) : Int :=
  departure_at trip 0

/-- Route (route.h): trips plus display names and feed route id. -/
structure Route where
  trips : List Trip
  short_name : String
  long_name : String
  gtfs_id : String
deriving Repr, DecidableEq

/-- Trip ordering applied when a Route is assembled from GTFS
(gtfs.cpp, from_gtfs for Routes): std::ranges::sort with the projection
trip.get_stop_times()[0].get_departure_time().get_sys_time() and std::less.
ranges::sort guarantees only that the result is a permutation ordered by
this key; mergeSort is a deterministic stand-in realising one such
permutation. -/
def sort_route_trips (trips : List Trip) : List Trip :=
  trips.mergeSort (fun a b => decide (first_departure a ≤ first_departure b))

/- ===== raptor/raptor.h: labels and status ===== -/

/-- JourneyInformation (raptor.h): arrival instant, optional boarding stop
(by GTFS id), optional (route index, trip index) pair; both optionals absent
mean on-foot movement / journey origin respectively. -/
structure JourneyInformation where
  arrival_time : Int
  boarding_stop : Option String
  route_and_trip_index : Option (Nat × Nat)
deriving Repr, DecidableEq

/-- std::unordered_map::insert_or_assign keyed by stop GTFS id. -/
def insert_or_assign {α : Type} (key : String) (value : α) :
    List (String × α) → List (String × α)
  | [] => [(key, value)]
  | (k, v) :: rest =>
    if k == key then (key, value) :: rest
    else (k, v) :: insert_or_assign key value rest

/-- std::unordered_set::insert keyed by stop GTFS id. -/
def set_insert (key : String) (s : List String) : List String :=
  if key ∈ s then s else s ++ [key]

/-- RaptorStatus (raptor.h): label manager maps, earliest arrival map,
improved (marked) stop set, round counter and the query destination. -/
structure RaptorStatus where
  current_round_labels : List (String × JourneyInformation)
  previous_round_labels : List (String × JourneyInformation)
  earliest_arrival_time : List (String × Int)
  improved_stops : List String
  n_round : Int
  destination : String
deriving Repr, DecidableEq

/-- RaptorStatus::can_improve_current_journey_to_stop (raptor.h 131-141):
if the stop has no recorded earliest arrival the function returns true at
once; otherwise it compares against the stop's record, additionally capped
by the destination's record when one exists. -/
def can_improve_current_journey_to_stop (status : RaptorStatus)
    (new_arrival_time : Int) (current_stop : String) : Bool :=
  match List.lookup current_stop status.earliest_arrival_time with
  | none => true
  | some arrival_to_current =>
    match List.lookup status.destination status.earliest_arrival_time with
    | none => decide (new_arrival_time < arrival_to_current)
    | some arrival_to_destination =>
      decide (new_arrival_time < min arrival_to_current arrival_to_destination)

/-- RaptorStatus::try_improve_stop (raptor.h 167-178): on success stores the
label (LabelManager::add_label = insert_or_assign on the current round),
updates the earliest arrival, marks the stop and returns true; otherwise
returns false leaving the status untouched. -/
def try_improve_stop (status : RaptorStatus) (stop : String)
    (new_arrival_time : Int) (boarding_stop : Option String)
    (route_with_trip_index : Option (Nat × Nat)) : RaptorStatus × Bool :=
  if can_improve_current_journey_to_stop status new_arrival_time stop then
    ({ status with
        current_round_labels :=
          insert_or_assign stop
            ⟨new_arrival_time, boarding_stop, route_with_trip_index⟩
            status.current_round_labels,
        earliest_arrival_time :=
          insert_or_assign stop new_arrival_time status.earliest_arrival_time,
        improved_stops := set_insert stop status.improved_stops },
      true)
  else (status, false)

/-- Raptor::find_earliest_trip (raptor.h 258-268): std::ranges::find_if over
the route's trips with the predicate departure-at-position strictly greater
than the requested departure time; returns the index of the first match in
stored order, none when no trip matches. -/
def find_earliest_trip : List Trip → Int → Nat → Option Nat
  | [], _, _ => none
  | trip :: rest, departure_time, stop_index =>
    if departure_time < departure_at trip stop_index then some 0
    else (find_earliest_trip rest departure_time stop_index).map (· + 1)

/- ===== transfers/linear_walk_calculator.h, schedule/Schedule.cpp ===== -/

/-- C library atan2, used through std::atan2 by the haversine code. -/
noncomputable def atan2 (y x : ℝ) : ℝ :=
  if 0 < x then Real.arctan (y / x)
  else if x < 0 ∧ 0 ≤ y then Real.arctan (y / x) + Real.pi
  else if x < 0 ∧ y < 0 then Real.arctan (y / x) - Real.pi
  else if x = 0 ∧ 0 < y then Real.pi / 2
  else if x = 0 ∧ y < 0 then -(Real.pi / 2)
  else 0

/-- LinearWalkTimeCalculator::calculate_distance (Schedule.cpp 69-84),
transcribed exactly as written: note that delta_lambda is
longitude_2 - longitude_1 * pi / 180 (the subtraction is NOT inside the
parenthesis), matching the source line
  double delta_lambda = longitude_2 - longitude_1 * M_PI / 180; -/
noncomputable def calculate_distance
    (latitude_1 longitude_1 latitude_2 longitude_2 : ℝ) : ℝ :=
  let R : ℝ := 6371
  let delta_phi := (latitude_2 - latitude_1) * Real.pi / 180
  let delta_lambda := longitude_2 - longitude_1 * Real.pi / 180
  let phi_1 := latitude_1 * Real.pi / 180
  let phi_2 := latitude_2 * Real.pi / 180
  let a := Real.sin (delta_phi / 2) ^ 2 +
    Real.cos phi_1 * Real.cos phi_2 * Real.sin (delta_lambda / 2) ^ 2
  let c := 2 * atan2 (Real.sqrt a) (Real.sqrt (1 - a))
  R * c

/-- LinearWalkTimeCalculator state: walking speed in km/h and the time
scaling factor (linear_walk_calculator.h). -/
structure LinearWalkTimeCalculator where
  walking_speed : ℝ
  scaling_factor : ℝ

/-- LinearWalkTimeCalculator constructor (Schedule.cpp 86-92): throws
invalid_argument when the walking speed is not positive; no other check is
performed. -/
noncomputable def LinearWalkTimeCalculator.init
    (walking_speed_km_h time_scaling_factor : ℝ) :
    Except String LinearWalkTimeCalculator :=
  if walking_speed_km_h ≤ 0 then Except.error "Walking speed must be positive"
  else Except.ok ⟨walking_speed_km_h, time_scaling_factor⟩

/-- LinearWalkTimeCalculator::calculate_walking_time(double)
(Schedule.cpp 100-103): time = 3600 * distance / walking_speed, then
2 * seconds(static_cast to int of ceil(time)); the multiplier in the source
is the literal 2, the stored scaling_factor is not used. -/
noncomputable def calculate_walking_time (model : LinearWalkTimeCalculator)
    (distance : ℝ) : Int :=
  2 * ⌈3600 * distance / model.walking_speed⌉

/-- LinearWalkTimeCalculator::calculate_walking_time with coordinates
(Schedule.cpp 94-98): walking time of the computed distance. -/
noncomputable def calculate_walking_time_coords
    (model : LinearWalkTimeCalculator)
    (latitude_1 longitude_1 latitude_2 longitude_2 : ℝ) : Int :=
  calculate_walking_time model
    (calculate_distance latitude_1 longitude_1 latitude_2 longitude_2)

/-- Modelled from the spec (section 4.3), for comparison against the code:
great-circle distance via the haversine formula on a sphere of radius
6371 km, with delta_lambda = (lon2 - lon1) * pi / 180. -/
noncomputable def spec_haversine_distance
    (latitude_1 longitude_1 latitude_2 longitude_2 : ℝ) : ℝ :=
  let R : ℝ := 6371
  let delta_phi := (latitude_2 - latitude_1) * Real.pi / 180
  let delta_lambda := (longitude_2 - longitude_1) * Real.pi / 180
  let phi_1 := latitude_1 * Real.pi / 180
  let phi_2 := latitude_2 * Real.pi / 180
  let a := Real.sin (delta_phi / 2) ^ 2 +
    Real.cos phi_1 * Real.cos phi_2 * Real.sin (delta_lambda / 2) ^ 2
  let c := 2 * atan2 (Real.sqrt a) (Real.sqrt (1 - a))
  R * c

/-- Modelled from the spec (section 4.3), for comparison against the code:
walking time = ceil(3600 * distance / speed) * scale whole seconds, with the
distance given by the haversine formula. -/
noncomputable def spec_walking_time (speed scale : ℝ)
    (latitude_1 longitude_1 latitude_2 longitude_2 : ℝ) : ℝ :=
  (⌈3600 * spec_haversine_distance latitude_1 longitude_1 latitude_2
      longitude_2 / speed⌉ : ℝ) * scale

/- ===== transfers/kd_tree (StopKDTree) ===== -/

/-- StopKDTree::to_cartesian: geographic degrees to 3-D Cartesian
coordinates on a sphere of radius 6371 km. -/
noncomputable def to_cartesian (latitude_deg longitude_deg : ℝ) : ℝ × ℝ × ℝ :=
  let latitude := latitude_deg * (Real.pi / 180)
  let longitude := longitude_deg * (Real.pi / 180)
  let R : ℝ := 6371
  (R * Real.cos latitude * Real.cos longitude,
   R * Real.cos latitude * Real.sin longitude,
   R * Real.sin latitude)

/-- Squared Euclidean distance between 3-D points, the metric of
nanoflann's L2_Simple_Adaptor. -/
noncomputable def dist_sq (p q : ℝ × ℝ × ℝ) : ℝ :=
  (p.1 - q.1) ^ 2 + (p.2.1 - q.2.1) ^ 2 + (p.2.2 - q.2.2) ^ 2

/-- Modelled from the documented semantics of the external nanoflann
library (not part of this repository): radiusSearch with an L2 adaptor
collects every point whose SQUARED Euclidean distance to the query is
strictly below the given threshold (RadiusResultSet::addPoint keeps a point
when dist < radius), reported as (index, squared distance) pairs in index
order. -/
noncomputable def radius_search (points : List (ℝ × ℝ × ℝ))
    (query : ℝ × ℝ × ℝ) (threshold : ℝ) : List (Nat × ℝ) :=
  (points.enum.filter (fun p => decide (dist_sq query p.2 < threshold))).map
    (fun p => (p.1, dist_sq query p.2))

/-- Cartesian position of a stop as indexed by the kd-tree constructor. -/
noncomputable def stop_cartesian (s : Stop) : ℝ × ℝ × ℝ :=
  to_cartesian s.latitude s.longitude

/-- StopKDTree::stops_in_radius(cartesian, radius_km) (StopKDTree.h 58-63):
the source passes std::sqrt(radius_km) as the radiusSearch threshold, even
though the L2 threshold of nanoflann is a squared distance. -/
noncomputable def stops_in_radius_cartesian (stops : List Stop)
    (cartesian_coords : ℝ × ℝ × ℝ) (radius_km : ℝ) : List (Nat × ℝ) :=
  radius_search (stops.map stop_cartesian) cartesian_coords
    (Real.sqrt radius_km)

/-- StopKDTree::convert_flann_results (StopKDTree.h 65-75): each nanoflann
ResultItem (index, squared distance) becomes (stops.at(index), match.second);
the numeric field is passed through unchanged. -/
noncomputable def convert_flann_results (stops : List Stop)
    (flann_results : List (Nat × ℝ)) : List (Stop × ℝ) :=
  flann_results.map (fun m => (stops.getD m.1 default, m.2))

/-- StopKDTree::stops_in_radius(const Stop&, double) (StopKDTree.h 104-116):
converts the stop to Cartesian coordinates, runs the radius search and
converts the results. The revision cited defines an is_not_search_stop
lambda but never applies it, so the results are converted unfiltered. -/
noncomputable def stops_in_radius_stop (stops : List Stop) (stop : Stop)
    (radius_km : ℝ) : List (Stop × ℝ) :=
  convert_flann_results stops
    (stops_in_radius_cartesian stops (stop_cartesian stop) radius_km)

/-- StopKDTree::stops_in_radius(latitude, longitude, radius_km) (kd_tree
NearbyStopsFinder overload): search centred on raw coordinates, results
converted without any exclusion. -/
noncomputable def stops_in_radius_coords (stops : List Stop)
    (latitude longitude radius_km : ℝ) : List (Stop × ℝ) :=
  convert_flann_results stops
    (stops_in_radius_cartesian stops (to_cartesian latitude longitude)
      radius_km)

/- ===== transfers/transfers.h, transfers.cpp ===== -/

/-- TransferManagerParameters (transfers.h): search radius and the two
configured durations, in seconds. -/
structure TransferManagerParameters where
  max_radius_km : ℝ
  exit_station_duration : Int
  in_station_transfer_duration : Int

/-- The TransferManager transfer map: stop GTFS id to the list of
(destination stop GTFS id, transfer duration in seconds). -/
abbrev TransferMap := List (String × List (String × Int))

/-- std::unordered_map::emplace: inserts only when the key is absent. -/
def map_emplace (m : TransferMap) (key : String)
    (value : List (String × Int)) : TransferMap :=
  if (List.lookup key m).isSome then m else m ++ [(key, value)]

/-- Reading a transfer-map entry, empty when absent (this is both the
operator-bracket default insertion read during construction and
get_transfers_from_stop's fallback to the empty vector). -/
def map_at (m : TransferMap) (key : String) : List (String × Int) :=
  (List.lookup key m).getD []

/-- One loop iteration of build_same_station_transfers: nothing for a stop
without a parent station; otherwise emplace the list of edges to every other
stop of that station, each with a duration of 60 seconds (the literal
std::chrono::seconds 60 of the source; the configured
in_station_transfer_duration parameter is not consulted). -/
def same_station_step (m : TransferMap) (s : Stop) : TransferMap :=
  match s.parent_station with
  | none => m
  | some st =>
    map_emplace m s.gtfs_id
      ((st.stop_ids.filter (fun other => other != s.gtfs_id)).map
        (fun other => (other, 60)))

/-- TransferManager::build_same_station_transfers (transfers.cpp 5-24): the
loop over all stops. -/
def build_same_station_transfers (stops : List Stop) : TransferMap :=
  stops.foldl same_station_step []

/-- The appending loop of TransferManager::build_on_foot_transfers: the
source writes through a back_inserter into the same vector that the
no_existing_transfer filter reads (both capture existing_transfers by
reference), so each nearby candidate is checked against the edges appended
for the earlier candidates as well. -/
def on_foot_append (walk : ℝ → Int) (exit_station_duration : Int) :
    List (String × Int) → List (String × ℝ) → List (String × Int)
  | existing, [] => existing
  | existing, t :: rest =>
    if existing.all (fun e => e.1 != t.1) then
      on_foot_append walk exit_station_duration
        (existing ++ [(t.1, walk t.2 + exit_station_duration)]) rest
    else
      on_foot_append walk exit_station_duration existing rest

/-- TransferManager::build_on_foot_transfers (transfers.cpp 26-50): for each
stop, query the nearby-stops finder at the stop's coordinates with the
configured radius and append an edge walk(distance) + exit_station_duration
for every result that has no existing edge from this stop. The finder and
the walk-time calculator are the injected dependencies of TransferManager. -/
def on_foot_step (walk : ℝ → Int)
    (finder : ℝ → ℝ → ℝ → List (String × ℝ))
    (params : TransferManagerParameters) (m : TransferMap) (s : Stop) :
    TransferMap :=
  insert_or_assign s.gtfs_id
    (on_foot_append walk params.exit_station_duration (map_at m s.gtfs_id)
      (finder s.latitude s.longitude params.max_radius_km))
    m

/-- The loop of TransferManager::build_on_foot_transfers over all stops. -/
def build_on_foot_transfers (walk : ℝ → Int)
    (finder : ℝ → ℝ → ℝ → List (String × ℝ))
    (params : TransferManagerParameters) (stops : List Stop)
    (m : TransferMap) : TransferMap :=
  stops.foldl (on_foot_step walk finder params) m

/-- TransferManager::build_transfers: same-station transfers first, then
on-foot transfers. -/
def build_transfers (walk : ℝ → Int)
    (finder : ℝ → ℝ → ℝ → List (String × ℝ))
    (params : TransferManagerParameters) (stops : List Stop) : TransferMap :=
  build_on_foot_transfers walk finder params stops
    (build_same_station_transfers stops)

/-- TransferManager::get_transfers_from_stop: the stored list, or the empty
list when the stop has no entry. -/
def get_transfers_from_stop (m : TransferMap) (stop : Stop) :
    List (String × Int) :=
  map_at m stop.gtfs_id

/-- The default walk-time dependency of the transfer builder: the
LinearWalkTimeCalculator distance overload. -/
noncomputable def default_walk (speed scale : ℝ) : ℝ → Int :=
  fun distance => calculate_walking_time ⟨speed, scale⟩ distance

/-- The default nearby-stops dependency of the transfer builder: the
kd-tree finder over the given stops, results keyed by GTFS id. -/
noncomputable def kd_tree_finder (stops : List Stop) :
    ℝ → ℝ → ℝ → List (String × ℝ) :=
  fun latitude longitude radius_km =>
    (stops_in_radius_coords stops latitude longitude radius_km).map
      (fun p => (p.1.gtfs_id, p.2))

/- ===== raptor/schedule/gtfs.cpp: calendar expansion ===== -/

/-- C++ chrono weekday of a day count (C encoding, Sunday = 0):
1970-01-01, day 0, is a Thursday (= 4). -/
def weekday_of (date : Int) : Int :=
  (date + 4) % 7

/-- chrono weekday difference a - b: the number of days in [0, 6] such that
b advanced by it equals a. -/
def weekday_sub (a b : Int) : Int :=
  (a - b) % 7

/-- all_weekdays_in_period (gtfs.cpp 106-119), transcribed exactly: the
source computes days_until_next_weekday = weekday(sys_days(start)) - weekday
(note the operand order), ADDS it to start, then collects every seventh day
while the current date is at most the end of the period. The while loop is
written in closed form: it emits first, first + 7, ... for as long as the
value does not exceed the bound. -/
def all_weekdays_in_period (start finish weekday : Int) : List Int :=
  let days_until_next_weekday := weekday_sub (weekday_of start) weekday
  let first := start + days_until_next_weekday
  (List.range (if first ≤ finish then ((finish - first) / 7 + 1).toNat else 0)).map
    (fun k => first + 7 * k)

/-- A GTFS calendar record: service id, one availability flag per weekday,
and the service period. -/
structure CalendarItem where
  service_id : String
  monday : Bool
  tuesday : Bool
  wednesday : Bool
  thursday : Bool
  friday : Bool
  saturday : Bool
  sunday : Bool
  start_date : Int
  end_date : Int
deriving Repr, DecidableEq

/-- calendar_active_weekdays (gtfs.cpp 125-152): the enabled weekdays in
Monday-first order, in the C++ chrono encoding (Monday = 1 ... Saturday = 6,
Sunday = 0). -/
def calendar_active_weekdays (c : CalendarItem) : List Int :=
  (if c.monday then [1] else []) ++
  (if c.tuesday then [2] else []) ++
  (if c.wednesday then [3] else []) ++
  (if c.thursday then [4] else []) ++
  (if c.friday then [5] else []) ++
  (if c.saturday then [6] else []) ++
  (if c.sunday then [0] else [])

/-- Calendar expansion for one record (from_gtfs for Calendar,
gtfs.cpp 161-178): the concatenation, over the enabled weekdays, of
all_weekdays_in_period over the record's period. -/
def calendar_service_dates (c : CalendarItem) : List Int :=
  (calendar_active_weekdays c).foldl
    (fun acc w => acc ++ all_weekdays_in_period c.start_date c.end_date w) []

/- ===== Specification-side predicates and concrete fixtures ===== -/

/-- The improvement condition asserted for try_improve: strictly earlier
than the recorded best at the stop, and strictly earlier than the recorded
best at the destination when the stop already has a record (the branch the
source actually implements). -/
def can_improve_spec (status : RaptorStatus) (new_arrival_time : Int)
    (stop : String) : Prop :=
  match List.lookup stop status.earliest_arrival_time with
  | none => True
  | some arrival_to_current =>
    new_arrival_time < arrival_to_current ∧
    (match List.lookup status.destination status.earliest_arrival_time with
     | none => True
     | some arrival_to_destination =>
       new_arrival_time < arrival_to_destination)

/-- A trip departing its first stop at instant 100 (fixture). -/
def c1_trip : Trip :=
  ⟨[⟨100, 100, "X"⟩, ⟨110, 110, "Y"⟩], "t1", "sh"⟩

/-- A trip departing at instant 100 (fixture for the amended-claim witness). -/
def c1w_early : Trip :=
  ⟨[⟨100, 100, "X"⟩], "wa", "sh"⟩

/-- A trip departing at instant 200 (fixture for the amended-claim witness). -/
def c1w_late : Trip :=
  ⟨[⟨200, 200, "X"⟩], "wb", "sh"⟩

/-- A status whose destination d has recorded best arrival 10 while stop s
has none (fixture). -/
def c2_status : RaptorStatus :=
  ⟨[], [], [("d", 10)], [], 0, "d"⟩

/-- A fresh status with no recorded arrivals (fixture for the amended-claim
witness). -/
def c2w_status : RaptorStatus :=
  ⟨[], [], [], [], 0, "d"⟩

/-- Trip X at 900, Y at 930 (fixture: slow trip that departs first). -/
def c7_t1 : Trip :=
  ⟨[⟨900, 900, "X"⟩, ⟨930, 930, "Y"⟩], "T1", "sh"⟩

/-- Trip X at 920, Y at 925 (fixture: later, overtaking trip). -/
def c7_t2 : Trip :=
  ⟨[⟨920, 920, "X"⟩, ⟨925, 925, "Y"⟩], "T2", "sh"⟩

/-- A Monday-only calendar over 2024-01-03 .. 2024-01-09, as day counts
(fixture): 19725 is Wednesday 2024-01-03, 19731 is Tuesday 2024-01-09. -/
def c6_calendar : CalendarItem :=
  ⟨"svc", true, false, false, false, false, false, false, 19725, 19731⟩

/-- Stop on the equator at longitude 0 (fixture). -/
def c4_stop_a : Stop :=
  ⟨"Stop A", "A", "", 0, 0, none⟩

/-- Stop at the north pole (fixture); its chord distance from c4_stop_a is
6371 times the square root of 2, about 9010 km. -/
def c4_stop_b : Stop :=
  ⟨"Stop B", "B", "", 90, 0, none⟩

/-- Stop at coordinates (0, 0) (fixture for the self-inclusion behaviour). -/
def c8_s1 : Stop :=
  ⟨"Stop S1", "S1", "", 0, 0, none⟩

/-- A second, distant stop (fixture). -/
def c8_s2 : Stop :=
  ⟨"Stop S2", "S2", "", 90, 0, none⟩

/-- Station grouping the stops s1 and s2 (fixture). -/
def c5_station : Station :=
  ⟨"Station 1", "st1", ["s1", "s2"]⟩

/-- First member stop of the station st1 (fixture). -/
def c5_s1 : Stop :=
  ⟨"Stop 1", "s1", "", 0, 0, some c5_station⟩

/-- Second member stop of the station st1 (fixture). -/
def c5_s2 : Stop :=
  ⟨"Stop 2", "s2", "", 0, 0, some c5_station⟩

/-- Transfer parameters with a configured in-station duration of 90 seconds
(fixture). -/
def c5_params : TransferManagerParameters :=
  ⟨1, 120, 90⟩

/-- Station grouping the witness stops (fixture). -/
def c5w_station : Station :=
  ⟨"W station", "wst", ["w1", "w2"]⟩

/-- First witness stop (fixture). -/
def c5w_s1 : Stop :=
  ⟨"Stop W1", "w1", "", 0, 0, some c5w_station⟩

/-- Second witness stop (fixture). -/
def c5w_s2 : Stop :=
  ⟨"Stop W2", "w2", "", 0, 0, some c5w_station⟩

/-- Default transfer parameters (fixture). -/
def c5w_params : TransferManagerParameters :=
  ⟨1, 0, 60⟩

/-- A constant zero walk-time dependency (fixture). -/
def c5w_walk : ℝ → Int :=
  fun _ => 0

/-- A finder that never reports nearby stops (fixture). -/
def c5w_finder : ℝ → ℝ → ℝ → List (String × ℝ) :=
  fun _ _ _ => []

/-- The same-station edge list the builder constructs for one stop: one
60-second edge to every other stop of the parent station, empty without a
parent station. Used to characterise the transfer map entry of a stop. -/
def same_station_edges (s : Stop) : List (String × Int) :=
  match s.parent_station with
  | none => []
  | some st =>
    (st.stop_ids.filter (fun other => other != s.gtfs_id)).map
      (fun other => (other, 60))

/- ===== Helper lemmas ===== -/

theorem lookup_insert_or_assign_self {α : Type} (key : String) (value : α) :
    ∀ m : List (String × α),
      List.lookup key (insert_or_assign key value m) = some value := by
  intro m
  induction m with
  | nil => simp [insert_or_assign, List.lookup]
  | cons head tail ih =>
    obtain ⟨k, v⟩ := head
    by_cases h : k = key
    · subst h
      simp [insert_or_assign, List.lookup]
    · have hk : (k == key) = false := beq_eq_false_iff_ne.mpr h
      have hk2 : (key == k) = false := beq_eq_false_iff_ne.mpr (Ne.symm h)
      simp [insert_or_assign, hk, List.lookup, hk2, ih]

theorem mem_set_insert_self (key : String) (s : List String) :
    key ∈ set_insert key s := by
  by_cases h : key ∈ s
  · simp [set_insert, h]
  · simp [set_insert, h]

theorem can_improve_iff_spec (status : RaptorStatus) (new_arrival_time : Int)
    (stop : String) :
    can_improve_current_journey_to_stop status new_arrival_time stop = true ↔
      can_improve_spec status new_arrival_time stop := by
  unfold can_improve_current_journey_to_stop can_improve_spec
  cases List.lookup stop status.earliest_arrival_time with
  | none => simp
  | some cur =>
    cases List.lookup status.destination status.earliest_arrival_time with
    | none => simp
    | some dest => simp [lt_min_iff]

/- ===== C1 ===== -/

/-- Claim C1, counterexample: with a single trip whose departure at position
0 is exactly the previous-round arrival instant 100, find_earliest_trip
selects no trip at all, although the claim states that a trip departing
exactly at t_hop is catchable and is selected. -/
theorem find_earliest_trip_rejects_equal_departure :
    find_earliest_trip [c1_trip] 100 0 = none ∧
      departure_at c1_trip 0 = 100 := by
  decide

/-- Claim C1, amended: when the departures at position i are monotone across
the stored trip order, find_earliest_trip returns the earliest trip whose
departure at position i is STRICTLY greater than the requested time (a trip
departing exactly then is skipped), and returns none exactly when every trip
departs no later than the requested time. -/
theorem find_earliest_trip_strictly_after (trips : List Trip) (t : Int)
    (i : Nat)
    (hsorted : trips.Pairwise (fun a b => departure_at a i ≤ departure_at b i)) :
    (∀ j, find_earliest_trip trips t i = some j →
      ∃ trip, trips.get? j = some trip ∧ t < departure_at trip i ∧
        ∀ trip2 ∈ trips, t < departure_at trip2 i →
          departure_at trip i ≤ departure_at trip2 i) ∧
    (find_earliest_trip trips t i = none →
      ∀ trip ∈ trips, departure_at trip i ≤ t) := by
  induction trips with
  | nil => simp [find_earliest_trip]
  | cons trip rest ih =>
    rw [List.pairwise_cons] at hsorted
    obtain ⟨hhead, htail⟩ := hsorted
    have ihr := ih htail
    by_cases hlt : t < departure_at trip i
    · refine ⟨?_, ?_⟩
      · intro j hj
        simp only [find_earliest_trip, if_pos hlt, Option.some.injEq] at hj
        subst hj
        refine ⟨trip, rfl, hlt, ?_⟩
        intro trip2 htrip2 _
        rcases List.mem_cons.mp htrip2 with h | h
        · subst h; exact le_refl _
        · exact hhead trip2 h
      · intro hnone
        simp [find_earliest_trip, if_pos hlt] at hnone
    · refine ⟨?_, ?_⟩
      · intro j hj
        simp only [find_earliest_trip, if_neg hlt, Option.map_eq_some'] at hj
        obtain ⟨j', hj', rfl⟩ := hj
        obtain ⟨trip', hget, hlt', hmin⟩ := ihr.1 j' hj'
        refine ⟨trip', by simpa using hget, hlt', ?_⟩
        intro trip2 htrip2 h2
        rcases List.mem_cons.mp htrip2 with h | h
        · subst h; exact absurd h2 hlt
        · exact hmin trip2 h h2
      · intro hnone
        simp only [find_earliest_trip, if_neg hlt, Option.map_eq_none'] at hnone
        intro trip2 htrip2
        rcases List.mem_cons.mp htrip2 with h | h
        · subst h; exact le_of_not_lt hlt
        · exact ihr.2 hnone trip2 h

/-- Witness for the amended claim C1, at two sorted trips and request
instant 50: the selected trip indeed departs strictly later than 50. -/
theorem find_earliest_trip_strictly_after_witness :
    (50 : Int) < departure_at c1w_early 0 := by
  obtain ⟨trip, hget, hlt, -⟩ :=
    (find_earliest_trip_strictly_after [c1w_early, c1w_late] 50 0
      (by decide)).1 0 (by decide)
  have htrip : trip = c1w_early := by
    simpa using hget.symm
  rw [htrip] at hlt
  exact hlt

/- ===== C2 ===== -/

/-- Claim C2, counterexample: the destination d has recorded best arrival
10, stop s has none; try_improve_stop with arrival 20 returns true and
changes the state, although the claim requires the new arrival to be
strictly earlier than the destination's best (20 is not earlier than 10),
predicting false with no state change. -/
theorem try_improve_skips_target_pruning_for_unseen_stop :
    (try_improve_stop c2_status "s" 20 none none).2 = true ∧
    List.lookup "d" c2_status.earliest_arrival_time = some 10 ∧
    List.lookup "s" c2_status.earliest_arrival_time = none ∧
    c2_status.destination = "d" ∧
    ¬ ((20 : Int) < 10) ∧
    (try_improve_stop c2_status "s" 20 none none).1 ≠ c2_status := by
  decide

/-- Claim C2, amended: try_improve_stop returns true, stores the label,
updates the best arrival and marks the stop exactly when the new arrival is
strictly earlier than the recorded best arrival at the stop AND strictly
earlier than the recorded best arrival at the destination — except that when
the stop has no recorded best arrival the improvement is accepted
unconditionally (the destination target-pruning check is skipped); on
failure it returns false and changes no state. -/
theorem try_improve_stop_spec (status : RaptorStatus) (stop : String)
    (new_arrival_time : Int) (boarding_stop : Option String)
    (route_with_trip_index : Option (Nat × Nat)) :
    ((try_improve_stop status stop new_arrival_time boarding_stop
        route_with_trip_index).2 = true ↔
      can_improve_spec status new_arrival_time stop) ∧
    ((try_improve_stop status stop new_arrival_time boarding_stop
        route_with_trip_index).2 = true →
      List.lookup stop (try_improve_stop status stop new_arrival_time
          boarding_stop route_with_trip_index).1.current_round_labels =
        some ⟨new_arrival_time, boarding_stop, route_with_trip_index⟩ ∧
      List.lookup stop (try_improve_stop status stop new_arrival_time
          boarding_stop route_with_trip_index).1.earliest_arrival_time =
        some new_arrival_time ∧
      stop ∈ (try_improve_stop status stop new_arrival_time boarding_stop
          route_with_trip_index).1.improved_stops) ∧
    ((try_improve_stop status stop new_arrival_time boarding_stop
        route_with_trip_index).2 = false →
      (try_improve_stop status stop new_arrival_time boarding_stop
        route_with_trip_index).1 = status) := by
  by_cases h : can_improve_current_journey_to_stop status new_arrival_time stop
  · refine ⟨?_, ?_, ?_⟩
    · simp only [try_improve_stop, if_pos h]
      simpa using (can_improve_iff_spec status new_arrival_time stop).mp h
    · intro _
      simp only [try_improve_stop, if_pos h]
      exact ⟨lookup_insert_or_assign_self _ _ _,
        lookup_insert_or_assign_self _ _ _,
        mem_set_insert_self _ _⟩
    · intro hfalse
      simp [try_improve_stop, if_pos h] at hfalse
  · refine ⟨?_, ?_, ?_⟩
    · simp only [try_improve_stop, if_neg h]
      constructor
      · intro hc; exact absurd hc Bool.false_ne_true
      · intro hc
        exact absurd ((can_improve_iff_spec status new_arrival_time stop).mpr hc) h
    · intro htrue
      simp [try_improve_stop, if_neg h] at htrue
    · intro _
      simp [try_improve_stop, if_neg h]

/-- Witness for the amended claim C2, on a fresh status with no recorded
arrivals: the improvement succeeds and the label is stored. -/
theorem try_improve_stop_spec_witness :
    List.lookup "s" (try_improve_stop c2w_status "s" 5 none
        none).1.current_round_labels = some ⟨5, none, none⟩ := by
  exact ((try_improve_stop_spec c2w_status "s" 5 none none).2.1 (by decide)).1

/- ===== C6 ===== -/

/-- Claim C6: for the Monday-only calendar over Wednesday 2024-01-03
(day 19725) .. Tuesday 2024-01-09 (day 19731), the expansion generates
exactly day 19727 (Friday 2024-01-05), which does not fall on an enabled
weekday, and misses Monday 2024-01-08 (day 19730), which lies in the window
on an enabled weekday — both directions of the claim fail on the code. -/
theorem calendar_expansion_wrong_weekday :
    all_weekdays_in_period 19725 19731 1 = [19727] ∧
    weekday_of 19727 = 5 ∧
    weekday_of 19730 = 1 ∧
    (19725 : Int) ≤ 19730 ∧ (19730 : Int) ≤ 19731 ∧
    19730 ∉ all_weekdays_in_period 19725 19731 1 ∧
    calendar_service_dates c6_calendar = [19727] := by
  decide

/- ===== C7 ===== -/

/-- Claim C7, counterexample: two trips over the same stops where the trip
departing first arrives later; sorting by first-stop departure stores them
as T1, T2, and the departures at position 1 (930, then 925) DECREASE, so the
departure instants at a fixed position are not non-decreasing in stored
order as the claim asserts. -/
theorem route_trip_sort_not_monotone_at_all_positions :
    sort_route_trips [c7_t2, c7_t1] = [c7_t1, c7_t2] ∧
    first_departure c7_t1 ≤ first_departure c7_t2 ∧
    departure_at c7_t2 1 < departure_at c7_t1 1 := by
  refine ⟨?_, by decide, by decide⟩
  simp [sort_route_trips, c7_t1, c7_t2, List.mergeSort, first_departure,
    departure_at]

/-- Claim C7, amended: the feed builder stores a route's trips as a
permutation of its trips that is sorted by first-stop departure instant
ascending (the source specifies no tie-break, and monotonicity holds only
for the first position, not at every position of the stop sequence). -/
theorem route_trip_sort_sorted_by_first_departure (trips : List Trip) :
    List.Pairwise (fun a b => first_departure a ≤ first_departure b)
      (sort_route_trips trips) ∧
    List.Perm (sort_route_trips trips) trips := by
  constructor
  · have h := @List.sorted_mergeSort Trip
      (fun a b => decide (first_departure a ≤ first_departure b))
      (fun a b c hab hbc => by
        simp only [decide_eq_true_eq] at hab hbc ⊢
        exact le_trans hab hbc)
      (fun a b => by
        simp only [Bool.or_eq_true, decide_eq_true_eq]
        exact le_total _ _)
      trips
    exact h.imp (fun hab => by simpa using hab)
  · exact List.mergeSort_perm trips _

/- ===== C10 ===== -/

/-- Claim C10: stop equality compares exactly the GTFS id strings, the hash
key of a stop is its GTFS id, every container read keyed on stops (shown for
the transfer map, whose reads drive routing) cannot distinguish two stops
with equal ids, and two stop records differing in name, coordinates,
platform code and parent station are nevertheless equal. -/
theorem stop_identity_is_gtfs_id :
    (∀ a b : Stop, stop_eq a b = true ↔ a.gtfs_id = b.gtfs_id) ∧
    (∀ a b : Stop, stop_hash_key a = stop_hash_key b ↔ a.gtfs_id = b.gtfs_id) ∧
    (∀ (m : TransferMap) (a b : Stop), stop_eq a b = true →
      get_transfers_from_stop m a = get_transfers_from_stop m b) ∧
    (∃ a b : Stop, stop_eq a b = true ∧ a.name ≠ b.name ∧
      a.latitude ≠ b.latitude ∧ a.platform_code ≠ b.platform_code ∧
      a.parent_station ≠ b.parent_station) := by
  refine ⟨?_, ?_, ?_, ?_⟩
  · intro a b
    simp [stop_eq]
  · intro a b
    simp [stop_hash_key]
  · intro m a b hab
    simp only [stop_eq, beq_iff_eq] at hab
    simp [get_transfers_from_stop, hab]
  · refine ⟨⟨"name a", "shared", "pa", 0, 0, none⟩,
      ⟨"name b", "shared", "pb", 1, 0, some ⟨"st", "st", []⟩⟩, ?_, ?_, ?_, ?_, ?_⟩
    · simp [stop_eq]
    · simp
    · norm_num
    · simp
    · simp

/-- Witness for claim C10: the transfer-map read at two stops sharing the id
shared but differing elsewhere gives identical results. -/
theorem stop_identity_is_gtfs_id_witness :
    get_transfers_from_stop [] ⟨"name a", "shared", "pa", 0, 0, none⟩ =
      get_transfers_from_stop [] ⟨"name b", "shared", "pb", 1, 0, none⟩ := by
  exact stop_identity_is_gtfs_id.2.2.1 [] _ _ (by decide)

/- ===== C9 ===== -/

/-- Claim C9: constructing the default walk-time model with positive walking
speed 5 and non-positive scaling factors 0 and -1 SUCCEEDS: the constructor
validates only the walking speed, although the claim (and the repository's
own test ScalingFactorMustBePositive) requires an invalid-argument failure
for a non-positive scaling factor. -/
theorem walk_calculator_accepts_nonpositive_scale :
    LinearWalkTimeCalculator.init 5 0 = Except.ok ⟨5, 0⟩ ∧
    LinearWalkTimeCalculator.init 5 (-1) = Except.ok ⟨5, -1⟩ ∧
    LinearWalkTimeCalculator.init 0 1 =
      Except.error "Walking speed must be positive" := by
  have h5 : ¬ ((5:ℝ) ≤ 0) := by norm_num
  have h0 : (0:ℝ) ≤ 0 := le_refl 0
  refine ⟨?_, ?_, ?_⟩ <;>
    simp [LinearWalkTimeCalculator.init, h5, h0]

/- ===== C3 ===== -/

/-- Claim C3: the default walk-time computation diverges from
ceil(3600 d / s) scaled by the configured factor c on the haversine
distance d, in two independent ways exhibited here. With speed 5 and
scaling factor 3/2, a 5 km walk yields 7200 s (the source multiplies by the
literal 2 and ignores the scaling factor; 3/2 of an hour would be 5400 s).
On the meridian (longitudes 0, where the source's delta-lambda slip
vanishes) from latitude 0 to latitude 45/pi with speed 3600 and scale 1 the
code returns 3186 s while the claimed formula gives 1593 s. Finally, for the
two IDENTICAL points (0, 90) the code computes a non-zero distance because
it evaluates delta_lambda as lon2 - lon1 * pi / 180, while the haversine
distance of a point to itself is 0. -/
theorem walk_time_formula_diverges :
    calculate_walking_time ⟨5, 3/2⟩ 5 = 7200 ∧
    calculate_walking_time_coords ⟨3600, 1⟩ 0 0 (45 / Real.pi) 0 = 3186 ∧
    spec_walking_time 3600 1 0 0 (45 / Real.pi) 0 = 1593 ∧
    calculate_distance 0 90 0 90 ≠ 0 ∧
    spec_haversine_distance 0 90 0 90 = 0 := by
  have hpi := Real.pi_ne_zero
  have hpi3 := Real.pi_gt_three
  have h8pos : (0:ℝ) < 1/8 := by norm_num
  have h8ltpi2 : (1:ℝ)/8 < Real.pi/2 := by linarith
  have h8ltpi : (1:ℝ)/8 < Real.pi := by linarith
  have hsin8 : (0:ℝ) ≤ Real.sin (1/8) :=
    le_of_lt (Real.sin_pos_of_pos_of_lt_pi h8pos h8ltpi)
  have hcos8 : (0:ℝ) < Real.cos (1/8) :=
    Real.cos_pos_of_mem_Ioo ⟨by linarith, h8ltpi2⟩
  have hdist : calculate_distance 0 0 (45 / Real.pi) 0 = 6371/4 := by
    have e1 : ((45:ℝ)/Real.pi - 0) * Real.pi / 180 / 2 = 1/8 := by
      field_simp
      ring
    have e2 : (0:ℝ) * Real.pi / 180 = 0 := by ring
    have e3 : ((45:ℝ)/Real.pi) * Real.pi / 180 = 1/4 := by
      field_simp
      norm_num
    simp only [calculate_distance, e1, e2, e3, sub_self, zero_div,
      Real.sin_zero, Real.cos_zero, one_mul, mul_zero, add_zero, ne_eq,
      OfNat.ofNat_ne_zero, not_false_eq_true, zero_pow]
    have hs : Real.sqrt (Real.sin (1/8) ^ 2) = Real.sin (1/8) :=
      Real.sqrt_sq hsin8
    have h1ma : (1:ℝ) - Real.sin (1/8) ^ 2 = Real.cos (1/8) ^ 2 := by
      have := Real.sin_sq_add_cos_sq (1/8 : ℝ)
      linarith
    have hc : Real.sqrt (Real.cos (1/8) ^ 2) = Real.cos (1/8) :=
      Real.sqrt_sq (le_of_lt hcos8)
    rw [hs, h1ma, hc]
    have hat : atan2 (Real.sin (1/8)) (Real.cos (1/8)) = 1/8 := by
      rw [atan2, if_pos hcos8,
        show Real.sin (1/8) / Real.cos (1/8) = Real.tan (1/8) from
          (Real.tan_eq_sin_div_cos _).symm,
        Real.arctan_tan (by linarith) h8ltpi2]
    rw [hat]
    norm_num
  have hdist_spec : spec_haversine_distance 0 0 (45 / Real.pi) 0 = 6371/4 := by
    have e1 : ((45:ℝ)/Real.pi - 0) * Real.pi / 180 / 2 = 1/8 := by
      field_simp
      ring
    have e2 : (0:ℝ) * Real.pi / 180 = 0 := by ring
    have e3 : ((45:ℝ)/Real.pi) * Real.pi / 180 = 1/4 := by
      field_simp
      norm_num
    have e4 : ((0:ℝ) - 0) * Real.pi / 180 / 2 = 0 := by ring
    simp only [spec_haversine_distance, e1, e2, e3, e4, Real.sin_zero,
      Real.cos_zero, one_mul, mul_zero, add_zero, ne_eq, OfNat.ofNat_ne_zero,
      not_false_eq_true, zero_pow]
    have hs : Real.sqrt (Real.sin (1/8) ^ 2) = Real.sin (1/8) :=
      Real.sqrt_sq hsin8
    have h1ma : (1:ℝ) - Real.sin (1/8) ^ 2 = Real.cos (1/8) ^ 2 := by
      have := Real.sin_sq_add_cos_sq (1/8 : ℝ)
      linarith
    have hc : Real.sqrt (Real.cos (1/8) ^ 2) = Real.cos (1/8) :=
      Real.sqrt_sq (le_of_lt hcos8)
    rw [hs, h1ma, hc]
    have hat : atan2 (Real.sin (1/8)) (Real.cos (1/8)) = 1/8 := by
      rw [atan2, if_pos hcos8,
        show Real.sin (1/8) / Real.cos (1/8) = Real.tan (1/8) from
          (Real.tan_eq_sin_div_cos _).symm,
        Real.arctan_tan (by linarith) h8ltpi2]
    rw [hat]
    norm_num
  have hceil : ⌈(3600:ℝ) * (6371/4) / 3600⌉ = 1593 := by
    norm_num [Int.ceil_eq_iff]
  refine ⟨?_, ?_, ?_, ?_, ?_⟩
  · show 2 * ⌈(3600:ℝ) * 5 / 5⌉ = 7200
    norm_num
  · show 2 * ⌈3600 * calculate_distance 0 0 (45 / Real.pi) 0 / 3600⌉ = 3186
    rw [hdist, hceil]
    norm_num
  · show (⌈3600 * spec_haversine_distance 0 0 (45 / Real.pi) 0 / 3600⌉ : ℝ) * 1 = 1593
    rw [hdist_spec, hceil]
    norm_num
  · have e1 : ((0:ℝ) - 0) * Real.pi / 180 / 2 = 0 := by ring
    have e2 : (0:ℝ) * Real.pi / 180 = 0 := by ring
    have e3 : ((90:ℝ) - 90 * Real.pi / 180) / 2 = 45 - Real.pi/4 := by ring
    simp only [calculate_distance, e1, e2, e3, Real.sin_zero, Real.cos_zero,
      one_mul, ne_eq, OfNat.ofNat_ne_zero, not_false_eq_true, zero_pow,
      zero_add]
    have hsin_ne : Real.sin (45 - Real.pi/4) ≠ 0 := by
      intro h
      rw [Real.sin_eq_zero_iff] at h
      obtain ⟨n, hn⟩ := h
      have h4 : ((4*n+1 : ℤ) : ℝ) * Real.pi = 180 := by
        push_cast
        linarith
      have h40 : (4*n+1 : ℤ) ≠ 0 := by omega
      have hirr : Irrational (((4*n+1:ℤ):ℝ) * Real.pi) :=
        irrational_pi.int_mul h40
      rw [h4] at hirr
      exact Int.not_irrational 180 (by exact_mod_cast hirr)
    have ha_pos : 0 < Real.sin (45 - Real.pi/4) ^ 2 :=
      pow_two_pos_of_ne_zero hsin_ne
    have hsq_pos : 0 < Real.sqrt (Real.sin (45 - Real.pi/4) ^ 2) :=
      Real.sqrt_pos.mpr ha_pos
    have hc_pos : 0 < atan2 (Real.sqrt (Real.sin (45 - Real.pi/4) ^ 2))
        (Real.sqrt (1 - Real.sin (45 - Real.pi/4) ^ 2)) := by
      rcases eq_or_lt_of_le
          (Real.sqrt_nonneg (1 - Real.sin (45 - Real.pi/4) ^ 2)) with h0 | hx
      · rw [atan2, if_neg (by rw [← h0]; exact lt_irrefl 0),
          if_neg (by rw [← h0]; simp),
          if_neg (by rw [← h0]; simp [not_and, le_of_lt hsq_pos]),
          if_pos ⟨h0.symm, hsq_pos⟩]
        linarith [Real.pi_pos]
      · rw [atan2, if_pos hx]
        have harg : 0 < Real.sqrt (Real.sin (45 - Real.pi/4) ^ 2) /
            Real.sqrt (1 - Real.sin (45 - Real.pi/4) ^ 2) :=
          div_pos hsq_pos hx
        have := Real.arctan_strictMono harg
        rw [Real.arctan_zero] at this
        exact this
    have : (0:ℝ) < 6371 * (2 * atan2
        (Real.sqrt (Real.sin (45 - Real.pi/4) ^ 2))
        (Real.sqrt (1 - Real.sin (45 - Real.pi/4) ^ 2))) := by
      have h2 : (0:ℝ) < 2 * atan2 (Real.sqrt (Real.sin (45 - Real.pi/4) ^ 2))
          (Real.sqrt (1 - Real.sin (45 - Real.pi/4) ^ 2)) := by linarith
      nlinarith
    exact this.ne'
  · have e1 : ((0:ℝ) - 0) * Real.pi / 180 / 2 = 0 := by ring
    have e2 : (0:ℝ) * Real.pi / 180 = 0 := by ring
    have e3 : ((90:ℝ) - 90) * Real.pi / 180 / 2 = 0 := by ring
    simp only [spec_haversine_distance, e1, e2, e3, sub_self, zero_div,
      zero_mul, Real.sin_zero, Real.cos_zero, one_mul, mul_zero, add_zero,
      ne_eq, OfNat.ofNat_ne_zero, not_false_eq_true, zero_pow, zero_add,
      Real.sqrt_zero, sub_zero, Real.sqrt_one, mul_one]
    rw [atan2, if_pos (by norm_num : (0:ℝ) < 1)]
    norm_num [Real.arctan_zero]

/- ===== Cartesian helper lemmas ===== -/

theorem to_cartesian_zero : to_cartesian 0 0 = ((6371:ℝ), 0, 0) := by
  simp [to_cartesian]

theorem to_cartesian_pole : to_cartesian 90 0 = ((0:ℝ), 0, 6371) := by
  have h : (90:ℝ) * (Real.pi / 180) = Real.pi / 2 := by ring
  simp [to_cartesian, h, Real.cos_pi_div_two, Real.sin_pi_div_two]

theorem dist_sq_same : dist_sq ((6371:ℝ), 0, 0) ((6371:ℝ), 0, 0) = 0 := by
  norm_num [dist_sq]

theorem dist_sq_pole : dist_sq ((6371:ℝ), 0, 0) ((0:ℝ), 0, 6371) = 81179282 := by
  norm_num [dist_sq]

/- ===== C4 ===== -/

/-- Claim C4: the radius query is NOT set-equal to brute-force Euclidean
search with threshold r, and the reported value is not the chord distance.
With a stop A on the equator and a stop B at the pole (chord distance
6371 times the square root of 2, about 9010 km, at most the radius
r = 10000 km), the query centred on A returns only A: the source passes
sqrt(r) as nanoflann's threshold on SQUARED distances, so B (squared chord
81179282) is compared against 100 and dropped, although its chord distance
is within the radius. -/
theorem kd_radius_search_misses_stop_within_radius :
    stops_in_radius_stop [c4_stop_a, c4_stop_b] c4_stop_a 10000 =
      [(c4_stop_a, 0)] ∧
    Real.sqrt (dist_sq (stop_cartesian c4_stop_a) (stop_cartesian c4_stop_b))
      ≤ 10000 := by
  have ha : stop_cartesian c4_stop_a = ((6371:ℝ), 0, 0) := by
    simp only [stop_cartesian, c4_stop_a]
    exact to_cartesian_zero
  have hb : stop_cartesian c4_stop_b = ((0:ℝ), 0, 6371) := by
    simp only [stop_cartesian, c4_stop_b]
    exact to_cartesian_pole
  have hsq : Real.sqrt 10000 = 100 := by
    rw [show (10000:ℝ) = 100^2 by norm_num,
      Real.sqrt_sq (by norm_num : (0:ℝ) ≤ 100)]
  constructor
  · simp only [stops_in_radius_stop, stops_in_radius_cartesian, radius_search,
      convert_flann_results, List.map_cons, List.map_nil, ha, hb, hsq,
      List.enum_cons, List.enumFrom, List.filter, dist_sq_same, dist_sq_pole,
      decide_eq_true (show (0:ℝ) < 100 by norm_num),
      decide_eq_false (show ¬ ((81179282:ℝ) < 100) by norm_num)]
    simp [c4_stop_a]
  · rw [ha, hb, dist_sq_pole]
    have h1 : Real.sqrt 81179282 ≤ Real.sqrt 100000000 :=
      Real.sqrt_le_sqrt (by norm_num)
    have h2 : Real.sqrt 100000000 = 10000 := by
      rw [show (100000000:ℝ) = 10000^2 by norm_num,
        Real.sqrt_sq (by norm_num : (0:ℝ) ≤ 10000)]
    linarith

/- ===== C8 ===== -/

/-- Claim C8: the radius query centred on the stop S1 itself DOES include
S1 (with reported value 0): the source revision cited computes the
is_not_search_stop filter but never applies it. The query centred on raw
coordinates equal to S1's coordinates also includes S1 with distance 0 (the
second half of the claim, which the code satisfies). -/
theorem kd_stop_query_includes_the_queried_stop :
    stops_in_radius_stop [c8_s1, c8_s2] c8_s1 1 = [(c8_s1, 0)] ∧
    stops_in_radius_coords [c8_s1, c8_s2] 0 0 1 = [(c8_s1, 0)] := by
  have ha : stop_cartesian c8_s1 = ((6371:ℝ), 0, 0) := by
    simp only [stop_cartesian, c8_s1]
    exact to_cartesian_zero
  have hb : stop_cartesian c8_s2 = ((0:ℝ), 0, 6371) := by
    simp only [stop_cartesian, c8_s2]
    exact to_cartesian_pole
  constructor
  · simp only [stops_in_radius_stop, stops_in_radius_cartesian, radius_search,
      convert_flann_results, List.map_cons, List.map_nil, ha, hb,
      Real.sqrt_one, List.enum_cons, List.enumFrom, List.filter, dist_sq_same,
      dist_sq_pole, decide_eq_true (show (0:ℝ) < 1 by norm_num),
      decide_eq_false (show ¬ ((81179282:ℝ) < 1) by norm_num)]
    simp [c8_s1]
  · simp only [stops_in_radius_coords, stops_in_radius_cartesian,
      radius_search, convert_flann_results, List.map_cons, List.map_nil, ha,
      hb, to_cartesian_zero, Real.sqrt_one, List.enum_cons, List.enumFrom,
      List.filter, dist_sq_same, dist_sq_pole,
      decide_eq_true (show (0:ℝ) < 1 by norm_num),
      decide_eq_false (show ¬ ((81179282:ℝ) < 1) by norm_num)]
    simp [c8_s1]

/- ===== Transfer-builder helper lemmas ===== -/

theorem lookup_insert_or_assign_ne {α : Type} (key other : String)
    (h : other ≠ key) (value : α) :
    ∀ m : List (String × α),
      List.lookup key (insert_or_assign other value m) = List.lookup key m := by
  intro m
  have hko : (key == other) = false := beq_eq_false_iff_ne.mpr (Ne.symm h)
  induction m with
  | nil => simp [insert_or_assign, List.lookup, hko]
  | cons head tail ih =>
    obtain ⟨k, v⟩ := head
    by_cases hk : k = other
    · subst hk
      simp [insert_or_assign, List.lookup, hko]
    · have hkk : (k == other) = false := beq_eq_false_iff_ne.mpr hk
      simp only [insert_or_assign, hkk, Bool.false_eq_true, if_false,
        List.lookup]
      cases hkey : (key == k) <;> simp [ih]

theorem on_foot_append_prefix (walk : ℝ → Int) (exit_duration : Int)
    (nearby : List (String × ℝ)) :
    ∀ existing : List (String × Int), ∃ tail,
      on_foot_append walk exit_duration existing nearby = existing ++ tail := by
  induction nearby with
  | nil => intro existing; exact ⟨[], by simp [on_foot_append]⟩
  | cons t rest ih =>
    intro existing
    by_cases h : existing.all (fun e => e.1 != t.1)
    · obtain ⟨tail, htail⟩ :=
        ih (existing ++ [(t.1, walk t.2 + exit_duration)])
      exact ⟨(t.1, walk t.2 + exit_duration) :: tail, by
        simp only [on_foot_append, h, if_true]
        rw [htail, List.append_assoc]
        rfl⟩
    · obtain ⟨tail, htail⟩ := ih existing
      exact ⟨tail, by simp only [on_foot_append, h, Bool.false_eq_true,
        if_false, htail]⟩

theorem on_foot_append_mem (walk : ℝ → Int) (exit_duration : Int)
    (nearby : List (String × ℝ)) :
    ∀ (existing : List (String × Int)) (edge : String × Int),
      edge ∈ on_foot_append walk exit_duration existing nearby →
      edge ∈ existing ∨
        ∃ r, (edge.1, r) ∈ nearby ∧ edge.2 = walk r + exit_duration := by
  induction nearby with
  | nil =>
    intro existing edge h
    exact Or.inl h
  | cons t rest ih =>
    intro existing edge h
    by_cases hall : existing.all (fun e => e.1 != t.1)
    · simp only [on_foot_append, hall, if_true] at h
      rcases ih _ edge h with hmem | ⟨r, hr, hw⟩
      · rcases List.mem_append.mp hmem with hmem2 | hmem2
        · exact Or.inl hmem2
        · simp only [List.mem_singleton] at hmem2
          subst hmem2
          exact Or.inr ⟨t.2, by simp, rfl⟩
      · exact Or.inr ⟨r, List.mem_cons_of_mem _ hr, hw⟩
    · simp only [on_foot_append, hall, Bool.false_eq_true, if_false] at h
      rcases ih _ edge h with hmem | ⟨r, hr, hw⟩
      · exact Or.inl hmem
      · exact Or.inr ⟨r, List.mem_cons_of_mem _ hr, hw⟩

theorem on_foot_append_mem_of_existing_key (walk : ℝ → Int)
    (exit_duration : Int) (nearby : List (String × ℝ)) :
    ∀ (existing : List (String × Int)) (edge : String × Int),
      edge ∈ on_foot_append walk exit_duration existing nearby →
      (∃ d, (edge.1, d) ∈ existing) → edge ∈ existing := by
  induction nearby with
  | nil =>
    intro existing edge h _
    exact h
  | cons t rest ih =>
    intro existing edge h hkey
    obtain ⟨d, hd⟩ := hkey
    by_cases hall : existing.all (fun e => e.1 != t.1)
    · simp only [on_foot_append, hall, if_true] at h
      have hne : edge.1 ≠ t.1 := by
        intro heq
        have := List.all_eq_true.mp hall (edge.1, d) hd
        simp only [bne_iff_ne, ne_eq] at this
        exact this heq
      have hmem := ih (existing ++ [(t.1, walk t.2 + exit_duration)]) edge h
        ⟨d, List.mem_append_left _ hd⟩
      rcases List.mem_append.mp hmem with h2 | h2
      · exact h2
      · simp only [List.mem_singleton] at h2
        exact absurd (by rw [h2]) hne
    · simp only [on_foot_append, hall, Bool.false_eq_true, if_false] at h
      exact ih existing edge h ⟨d, hd⟩

theorem same_station_foldl_lookup_ne (key : String) :
    ∀ (stops : List Stop) (m : TransferMap),
      (∀ x ∈ stops, x.gtfs_id ≠ key) →
      List.lookup key (stops.foldl same_station_step m) =
        List.lookup key m := by
  intro stops
  induction stops with
  | nil => intro m _; rfl
  | cons x rest ih =>
    intro m hne
    have hx : x.gtfs_id ≠ key := hne x (List.mem_cons_self _ _)
    have hstep : List.lookup key (same_station_step m x) =
        List.lookup key m := by
      unfold same_station_step
      cases x.parent_station with
      | none => rfl
      | some st =>
        unfold map_emplace
        by_cases hsome : (List.lookup x.gtfs_id m).isSome
        · simp [hsome]
        · have hkx : (key == x.gtfs_id) = false :=
            beq_eq_false_iff_ne.mpr (Ne.symm hx)
          simp [hsome, List.lookup_append, List.lookup, hkx]
    rw [List.foldl_cons, ih (same_station_step m x)
      (fun y hy => hne y (List.mem_cons_of_mem _ hy)), hstep]

theorem on_foot_foldl_lookup_ne (walk : ℝ → Int)
    (finder : ℝ → ℝ → ℝ → List (String × ℝ))
    (params : TransferManagerParameters) (key : String) :
    ∀ (stops : List Stop) (m : TransferMap),
      (∀ x ∈ stops, x.gtfs_id ≠ key) →
      List.lookup key (stops.foldl (on_foot_step walk finder params) m) =
        List.lookup key m := by
  intro stops
  induction stops with
  | nil => intro m _; rfl
  | cons x rest ih =>
    intro m hne
    have hx : x.gtfs_id ≠ key := hne x (List.mem_cons_self _ _)
    rw [List.foldl_cons, ih (on_foot_step walk finder params m x)
      (fun y hy => hne y (List.mem_cons_of_mem _ hy))]
    exact lookup_insert_or_assign_ne key x.gtfs_id hx _ m

theorem mem_map_gtfs_id {stops : List Stop} {s : Stop} (hs : s ∈ stops) :
    s.gtfs_id ∈ stops.map Stop.gtfs_id :=
  List.mem_map.mpr ⟨s, hs, rfl⟩

theorem build_same_station_map_at :
    ∀ (stops : List Stop) (m : TransferMap) (s : Stop), s ∈ stops →
      (stops.map Stop.gtfs_id).Nodup →
      List.lookup s.gtfs_id m = none →
      map_at (stops.foldl same_station_step m) s.gtfs_id =
        same_station_edges s := by
  intro stops
  induction stops with
  | nil => intro m s hs; exact absurd hs (List.not_mem_nil s)
  | cons x rest ih =>
    intro m s hs hnd hnone
    rw [List.map_cons, List.nodup_cons] at hnd
    obtain ⟨hxid, hndrest⟩ := hnd
    rcases List.mem_cons.mp hs with rfl | hsrest
    · have hrest_ne : ∀ y ∈ rest, y.gtfs_id ≠ s.gtfs_id := by
        intro y hy heq
        exact hxid (heq ▸ mem_map_gtfs_id hy)
      rw [List.foldl_cons]
      unfold map_at
      rw [same_station_foldl_lookup_ne s.gtfs_id rest _ hrest_ne]
      unfold same_station_step same_station_edges
      cases hp : s.parent_station with
      | none => rw [hnone]; rfl
      | some st =>
        unfold map_emplace
        rw [hnone]
        simp only [Option.isSome_none, Bool.false_eq_true, if_false,
          List.lookup_append, hnone, Option.none_or]
        simp [List.lookup]
    · have hsx : s.gtfs_id ≠ x.gtfs_id := by
        intro heq
        exact hxid (heq ▸ mem_map_gtfs_id hsrest)
      have hstep : List.lookup s.gtfs_id (same_station_step m x) = none := by
        unfold same_station_step
        cases x.parent_station with
        | none => exact hnone
        | some st =>
          unfold map_emplace
          by_cases hsome : (List.lookup x.gtfs_id m).isSome
          · simp only [hsome, if_true]; exact hnone
          · have hkx : (s.gtfs_id == x.gtfs_id) = false :=
              beq_eq_false_iff_ne.mpr hsx
            simp [hsome, List.lookup_append, hnone, List.lookup, hkx]
      rw [List.foldl_cons]
      exact ih (same_station_step m x) s hsrest hndrest hstep

theorem build_on_foot_map_at (walk : ℝ → Int)
    (finder : ℝ → ℝ → ℝ → List (String × ℝ))
    (params : TransferManagerParameters) :
    ∀ (stops : List Stop) (m : TransferMap) (s : Stop), s ∈ stops →
      (stops.map Stop.gtfs_id).Nodup →
      map_at (stops.foldl (on_foot_step walk finder params) m) s.gtfs_id =
        on_foot_append walk params.exit_station_duration (map_at m s.gtfs_id)
          (finder s.latitude s.longitude params.max_radius_km) := by
  intro stops
  induction stops with
  | nil => intro m s hs; exact absurd hs (List.not_mem_nil s)
  | cons x rest ih =>
    intro m s hs hnd
    rw [List.map_cons, List.nodup_cons] at hnd
    obtain ⟨hxid, hndrest⟩ := hnd
    rcases List.mem_cons.mp hs with rfl | hsrest
    · have hrest_ne : ∀ y ∈ rest, y.gtfs_id ≠ s.gtfs_id := by
        intro y hy heq
        exact hxid (heq ▸ mem_map_gtfs_id hy)
      rw [List.foldl_cons]
      unfold map_at
      rw [on_foot_foldl_lookup_ne walk finder params s.gtfs_id rest _ hrest_ne]
      unfold on_foot_step
      rw [lookup_insert_or_assign_self]
      rfl
    · have hsx : x.gtfs_id ≠ s.gtfs_id := by
        intro heq
        exact hxid (heq ▸ mem_map_gtfs_id hsrest)
      rw [List.foldl_cons]
      have := ih (on_foot_step walk finder params m x) s hsrest hndrest
      rw [this]
      have hsame : map_at (on_foot_step walk finder params m x) s.gtfs_id =
          map_at m s.gtfs_id := by
        unfold map_at on_foot_step
        rw [lookup_insert_or_assign_ne s.gtfs_id x.gtfs_id hsx]
      rw [hsame]

theorem transfers_from_characterized (walk : ℝ → Int)
    (finder : ℝ → ℝ → ℝ → List (String × ℝ))
    (params : TransferManagerParameters) (stops : List Stop) (s : Stop)
    (hs : s ∈ stops) (hnd : (stops.map Stop.gtfs_id).Nodup) :
    get_transfers_from_stop (build_transfers walk finder params stops) s =
      on_foot_append walk params.exit_station_duration (same_station_edges s)
        (finder s.latitude s.longitude params.max_radius_km) := by
  unfold get_transfers_from_stop build_transfers build_on_foot_transfers
  rw [build_on_foot_map_at walk finder params stops _ s hs hnd]
  unfold build_same_station_transfers
  rw [show map_at (List.foldl same_station_step [] stops) s.gtfs_id =
      same_station_edges s from
    build_same_station_map_at stops [] s hs hnd rfl]

/- ===== C5 ===== -/

/-- Claim C5, counterexample: with the configured in_station_transfer_duration
set to 90 seconds, the default builder (kd-tree finder plus linear walk
calculator) still emits the edge (s1, s2, 60 s) for the two stops sharing
station st1 — the same-station duration is the hardcoded literal 60 of the
source, not the configured value. -/
theorem same_station_edge_ignores_configured_duration :
    ("s2", (60:Int)) ∈ get_transfers_from_stop
        (build_transfers (default_walk 5 1) (kd_tree_finder [c5_s1, c5_s2])
          c5_params [c5_s1, c5_s2]) c5_s1 ∧
    c5_s1.parent_station = some c5_station ∧
    c5_s2.parent_station = some c5_station ∧
    c5_s2.gtfs_id = "s2" ∧
    c5_params.in_station_transfer_duration = 90 ∧
    (60 : Int) ≠ 90 := by
  refine ⟨?_, rfl, rfl, rfl, rfl, by decide⟩
  rw [transfers_from_characterized (default_walk 5 1)
    (kd_tree_finder [c5_s1, c5_s2]) c5_params [c5_s1, c5_s2] c5_s1
    (List.mem_cons_self _ _) (by decide)]
  have hedges : same_station_edges c5_s1 = [("s2", 60)] := by decide
  obtain ⟨tail, htail⟩ := on_foot_append_prefix (default_walk 5 1)
    c5_params.exit_station_duration
    (kd_tree_finder [c5_s1, c5_s2] c5_s1.latitude c5_s1.longitude
      c5_params.max_radius_km)
    (same_station_edges c5_s1)
  rw [htail, hedges]
  exact List.mem_append_left _ (by simp)

/-- Claim C5, amended: every edge (v, d) the builder records out of a stop s
either goes to another stop v of s's parent station with the hardcoded
duration d = 60 s (the configured in_station_transfer_duration is ignored),
or carries d = walk(r) + exit_station_duration for a distance value r the
spatial finder reported for s (the finder reports squared chord distances,
so d is not related to walk(haversine(u, v)) in general); and an edge to a
fellow member of the parent station always carries 60 s — it is never
overridden by an on-foot edge. Stated for stops with pairwise distinct
GTFS ids. -/
theorem transfer_edge_characterization (walk : ℝ → Int)
    (finder : ℝ → ℝ → ℝ → List (String × ℝ))
    (params : TransferManagerParameters) (stops : List Stop)
    (hnd : (stops.map Stop.gtfs_id).Nodup) (s : Stop) (hs : s ∈ stops) :
    (∀ edge ∈ get_transfers_from_stop
        (build_transfers walk finder params stops) s,
      (∃ st, s.parent_station = some st ∧ edge.1 ∈ st.stop_ids ∧
        edge.1 ≠ s.gtfs_id ∧ edge.2 = 60) ∨
      (∃ r, (edge.1, r) ∈ finder s.latitude s.longitude params.max_radius_km ∧
        edge.2 = walk r + params.exit_station_duration)) ∧
    (∀ st, s.parent_station = some st →
      ∀ edge ∈ get_transfers_from_stop
          (build_transfers walk finder params stops) s,
        edge.1 ∈ st.stop_ids → edge.1 ≠ s.gtfs_id → edge.2 = 60) := by
  rw [transfers_from_characterized walk finder params stops s hs hnd]
  constructor
  · intro edge hedge
    rcases on_foot_append_mem walk params.exit_station_duration _ _ edge hedge
      with hmem | ⟨r, hr, hw⟩
    · left
      unfold same_station_edges at hmem
      cases hp : s.parent_station with
      | none => rw [hp] at hmem; exact absurd hmem (List.not_mem_nil edge)
      | some st =>
        rw [hp] at hmem
        obtain ⟨other, hother, rfl⟩ := List.mem_map.mp hmem
        obtain ⟨hin, hne⟩ := List.mem_filter.mp hother
        exact ⟨st, rfl, hin, bne_iff_ne.mp hne, rfl⟩
    · exact Or.inr ⟨r, hr, hw⟩
  · intro st hp edge hedge hin hne
    have hkey : ∃ d, (edge.1, d) ∈ same_station_edges s := by
      refine ⟨60, ?_⟩
      unfold same_station_edges
      rw [hp]
      exact List.mem_map.mpr ⟨edge.1,
        List.mem_filter.mpr ⟨hin, bne_iff_ne.mpr hne⟩, rfl⟩
    have hmem := on_foot_append_mem_of_existing_key walk
      params.exit_station_duration _ _ edge hedge hkey
    unfold same_station_edges at hmem
    rw [hp] at hmem
    obtain ⟨other, -, heq⟩ := List.mem_map.mp hmem
    rw [← heq]

/-- Witness for the amended claim C5: for the two witness stops sharing
station wst with an empty finder, the recorded edge out of w1 goes to w2
and indeed carries 60 seconds. -/
theorem transfer_edge_characterization_witness :
    ("w2", (60:Int)) ∈ get_transfers_from_stop
        (build_transfers c5w_walk c5w_finder c5w_params [c5w_s1, c5w_s2])
        c5w_s1 ∧
    (("w2", (60:Int)).2 = 60) := by
  have hmem : ("w2", (60:Int)) ∈ get_transfers_from_stop
      (build_transfers c5w_walk c5w_finder c5w_params [c5w_s1, c5w_s2])
      c5w_s1 := by
    decide
  refine ⟨hmem, ?_⟩
  have h := transfer_edge_characterization c5w_walk c5w_finder c5w_params
    [c5w_s1, c5w_s2] (by decide) c5w_s1 (List.mem_cons_self _ _)
  rcases h.1 ("w2", 60) hmem with ⟨st, hst, hin, hne, h60⟩ | ⟨r, hr, -⟩
  · exact h60
  · exact absurd hr (by simp [c5w_finder])
